import Mathlib

/-!
# Proximity Visibility & Matching Engine — verification development

Shallow embedding of the engine implemented in `src/App.tsx` (with the data
model of `src/unnamed/part_000`, the project's `types.ts`).  React `useState`
fields become the fields of `AppState`; each event handler becomes a pure
function `AppState → AppState × Option Notification` (the `showNotification`
calls are the `Notification` output).  The asynchronous delayed reply of
`sendMessage` is split into the synchronous part and a `PendingReply` record
holding exactly the values the `setTimeout` closure captures; `fireReply` is
the body of that closure, applied to the state current when the timer fires.

JavaScript numbers are modelled as `ℚ` for coordinates and timestamps, and as
`ℝ` where the code takes square roots (clustering).  `Date.now()` values are
passed in as explicit `now` arguments.
-/

/-- Enum `EncounterStatus` from types.ts. -/
inductive EncounterStatus where
  | PENDING
  | LIKED_BY_ME
  | LIKED_BY_THEM
  | MATCHED
  | HIDDEN
deriving DecidableEq

/-- Union `EncounterTag` from types.ts: a closed six-element vocabulary
(`Flechazo`, `Cruzamos miradas`, `Interés`, `Curiosidad`, `Me atraes`,
`Me gustas`), rendered here as ASCII constructor names. -/
inductive EncounterTag where
  | flechazo
  | cruzamosMiradas
  | interes
  | curiosidad
  | meAtraes
  | meGustas
deriving DecidableEq

/-- Record `Location` from types.ts (`lat`/`lng` JavaScript numbers, modelled as ℚ). -/
structure Location where
  lat : ℚ
  lng : ℚ
deriving DecidableEq

/-- Record `UserProfile` from types.ts, restricted to the fields the engine logic
reads (`id`, `name`, `images`, `quickMessage`); purely rendering fields
(`age`, `gender`, `bio`, `coverImage`, `isCurrentUser`) are omitted. -/
structure UserProfile where
  id : String
  name : String
  quickMessage : Option String
  images : List String
deriving DecidableEq

/-- Record `Encounter` from types.ts. -/
structure Encounter where
  id : String
  userId : String
  userProfile : UserProfile
  title : String
  description : String
  location : Location
  timestamp : ℚ
  image : Option String
  status : EncounterStatus
  distance : Option ℚ
  tags : List EncounterTag
deriving DecidableEq

/-- Record `ChatMessage` from types.ts. -/
structure ChatMessage where
  id : String
  senderId : String
  text : String
  timestamp : ℚ
deriving DecidableEq

/-- Record `Chat` from types.ts. -/
structure Chat where
  encounterId : String
  partnerName : String
  partnerImage : String
  messages : List ChatMessage
  unreadCount : Nat
deriving DecidableEq

/-- The `currentView` state of App.tsx: `'main' | 'create' | 'details' | 'chat'`. -/
inductive View where
  | main
  | create
  | details
  | chat
deriving DecidableEq

/-- The `activeTab` state of App.tsx. -/
inductive Tab where
  | map
  | explore
  | matches
  | profile
deriving DecidableEq

/-- The `exploreMode` state of App.tsx. -/
inductive ExploreMode where
  | grouped
  | list
  | drilldown
deriving DecidableEq

/-- Notification type accepted by `showNotification` in App.tsx. -/
inductive NotifType where
  | success
  | info
  | error
deriving DecidableEq

/-- A `showNotification(message, type)` call, returned as data. -/
structure Notification where
  message : String
  type : NotifType
deriving DecidableEq

/-- The engine-relevant `useState` fields of the App component
(src/App.tsx lines 225-256 and the create-form fields). Rendering-only state
(map refs, search, dark mode, gallery, registration form) is omitted. -/
structure AppState where
  userProfile : UserProfile
  currentView : View
  activeTab : Tab
  exploreMode : ExploreMode
  myEncounters : List Encounter
  nearbyEncounters : List Encounter
  chats : List Chat
  activeChat : Option Chat
  selectedEncounter : Option Encounter
  isTyping : Bool
  showMatchOverlay : Bool
  showUnmatchDialog : Bool
  mapCenter : Option Location
  newEncounterTitle : String
  newEncounterDesc : String
  newEncounterImage : Option String
  newEncounterTags : List EncounterTag
deriving DecidableEq

/-- Handler `handleConnect` (src/App.tsx lines 606-630).  `initialMsg` is the string
the awaited external `generateInitialMessage(encounter.title)` resolved to;
`now` is `Date.now()`.  The overlay flag is set in the instant-match branch
before the chat is created, exactly as in the source. -/
def handleConnect (encounter : Encounter) (initialMsg : String) (now : ℚ)
    (s : AppState) : AppState × Option Notification :=
  let isInstantMatch := encounter.status = EncounterStatus.LIKED_BY_THEM
  let newStatus := if isInstantMatch then EncounterStatus.MATCHED else EncounterStatus.LIKED_BY_ME
  let updatedEncounter := { encounter with status := newStatus }
  let s := { s with
    nearbyEncounters :=
      s.nearbyEncounters.map (fun e => if e.id = encounter.id then updatedEncounter else e),
    selectedEncounter := some updatedEncounter }
  if isInstantMatch then
    let newChat : Chat :=
      { encounterId := encounter.id
        partnerName := encounter.userProfile.name
        partnerImage := encounter.userProfile.images.headD ""
        unreadCount := 1
        messages :=
          [ { id := "sys-1", senderId := "system", text := "¡Es un Match!", timestamp := now },
            { id := "initial-1", senderId := encounter.userId, text := initialMsg,
              timestamp := now + 1000 } ] }
    ({ s with showMatchOverlay := true, chats := newChat :: s.chats }, none)
  else
    (s, some { message := "Le has dado 'Me Gusta'", type := NotifType.success })

/-- Handler `handleReject` (src/App.tsx lines 632-639). -/
def handleReject (s : AppState) : AppState × Option Notification :=
  match s.selectedEncounter with
  | none => (s, none)
  | some sel =>
    let updated := { sel with status := EncounterStatus.HIDDEN }
    ({ s with
        nearbyEncounters := s.nearbyEncounters.map (fun e => if e.id = sel.id then updated else e),
        selectedEncounter := none,
        currentView := View.main },
     some { message := "Encuentro ocultado", type := NotifType.info })

/-- Handler `handleUnmatch` (src/App.tsx lines 641-655). -/
def handleUnmatch (s : AppState) : AppState × Option Notification :=
  match s.selectedEncounter with
  | none => (s, none)
  | some sel =>
    ({ s with
        nearbyEncounters := s.nearbyEncounters.map (fun e =>
          if e.id = sel.id then { e with status := EncounterStatus.PENDING } else e),
        chats := s.chats.filter (fun c => !(decide (c.encounterId = sel.id))),
        showUnmatchDialog := false,
        selectedEncounter := none,
        currentView := View.main,
        activeChat := none },
     some { message := "Match cancelado", type := NotifType.info })

/-- Handler `openChat` (src/App.tsx lines 657-683).  When no session exists for the
id, a recovery session is appended for any encounter found in
`nearbyEncounters` (the source performs no status check here); then the
found-or-created session has its unread count reset and becomes active. -/
def openChat (encounterId : String) (now : ℚ) (s : AppState) : AppState :=
  let found := s.chats.find? (fun c => decide (c.encounterId = encounterId))
  let withCreated : Option Chat × AppState :=
    match found with
    | some chat => (some chat, s)
    | none =>
      match s.nearbyEncounters.find? (fun e => decide (e.id = encounterId)) with
      | none => (none, s)
      | some enc =>
        let newChat : Chat :=
          { encounterId := enc.id
            partnerName := enc.userProfile.name
            partnerImage := enc.userProfile.images.headD ""
            unreadCount := 0
            messages :=
              [ { id := "sys-recovery", senderId := "system", text := "¡Es un Match!",
                  timestamp := now } ] }
        (some newChat, { s with chats := s.chats ++ [newChat] })
  match withCreated with
  | (none, s') => s'
  | (some chat, s') =>
    let updatedChat := { chat with unreadCount := 0 }
    { s' with
        chats := s'.chats.map (fun c => if c.encounterId = encounterId then updatedChat else c),
        activeChat := some updatedChat,
        currentView := View.chat,
        showMatchOverlay := false }

/-- The values the `setTimeout` closure inside `sendMessage`
(src/App.tsx lines 708-741) captures at send time: the chat with the user's
message already appended (`updatedChat`), the active chat's id, the partner
name, and — crucially — the render-time value of `currentView`. -/
structure PendingReply where
  capturedChat : Chat
  capturedActiveId : String
  capturedPartnerName : String
  capturedView : View
deriving DecidableEq

/-- Synchronous part of `sendMessage` (src/App.tsx lines 693-706): appends the
user's message to the active chat, mirrors it into `chats`, sets the typing
flag, and schedules the delayed reply (returned as a `PendingReply`). -/
def sendMessage (text : String) (now : ℚ) (s : AppState) :
    AppState × Option PendingReply :=
  match s.activeChat with
  | none => (s, none)
  | some ac =>
    let msg : ChatMessage :=
      { id := "msg-" ++ toString now.num, senderId := s.userProfile.id, text := text,
        timestamp := now }
    let updatedChat := { ac with messages := ac.messages ++ [msg] }
    ({ s with
        activeChat := some updatedChat,
        chats := s.chats.map (fun c =>
          if c.encounterId = ac.encounterId then updatedChat else c),
        isTyping := true },
     some { capturedChat := updatedChat
            capturedActiveId := ac.encounterId
            capturedPartnerName := ac.partnerName
            capturedView := s.currentView })

/-- Body of the `setTimeout` callback in `sendMessage`
(src/App.tsx lines 708-741), applied to the state current when the timer
fires.  Note that the focused-chat test `currentView === 'chat' &&
activeChat.encounterId === c.encounterId` reads the closure-captured values,
not the state at firing time. -/
def fireReply (p : PendingReply) (now : ℚ) (s : AppState) :
    AppState × Option Notification :=
  let reply : ChatMessage :=
    { id := "reply-" ++ toString now.num, senderId := "partner",
      text := "¡Jaja! Totalmente. ¿Sigues por la zona?", timestamp := now }
  let replyChat := { p.capturedChat with messages := p.capturedChat.messages ++ [reply] }
  let newActive : Option Chat :=
    match s.activeChat with
    | some prev => if prev.encounterId = p.capturedActiveId then some replyChat else some prev
    | none => none
  let newChats := s.chats.map (fun c =>
    if c.encounterId = p.capturedActiveId then
      if p.capturedView = View.chat ∧ p.capturedActiveId = c.encounterId then replyChat
      else { replyChat with unreadCount := c.unreadCount + 1 }
    else c)
  ({ s with isTyping := false, activeChat := newActive, chats := newChats },
   if p.capturedView ≠ View.chat then
     some { message := "Nuevo mensaje de " ++ p.capturedPartnerName, type := NotifType.success }
   else none)

/-- Handler `handleCreateEncounter` (src/App.tsx lines 535-565).  The JavaScript guard
`!mapCenter || !newEncounterTitle || !newEncounterDesc` treats the empty
string as falsy. -/
def handleCreateEncounter (now : ℚ) (s : AppState) : AppState × Option Notification :=
  match s.mapCenter with
  | none => (s, none)
  | some center =>
    if s.newEncounterTitle = "" ∨ s.newEncounterDesc = "" then (s, none)
    else if s.myEncounters.length ≥ 5 then
      (s, some { message := "Límite de 5 encuentros alcanzado", type := NotifType.error })
    else
      let newEncounter : Encounter :=
        { id := "mine-" ++ toString now.num
          userId := s.userProfile.id
          userProfile := s.userProfile
          title := s.newEncounterTitle
          description := s.newEncounterDesc
          location := center
          timestamp := now
          status := EncounterStatus.PENDING
          image := s.newEncounterImage
          distance := some 0
          tags := s.newEncounterTags }
      ({ s with
          myEncounters := newEncounter :: s.myEncounters,
          newEncounterTitle := "",
          newEncounterDesc := "",
          newEncounterImage := none,
          newEncounterTags := [],
          currentView := View.main,
          activeTab := Tab.explore,
          exploreMode := ExploreMode.grouped },
       some { message := "Encuentro publicado con éxito", type := NotifType.success })

/-- Handler `handleQuickPublish` (src/App.tsx lines 567-592).  `quickMessage ||
default` falls back on `none` and on the empty string (JavaScript falsiness);
`userProfile.images[0]` is `none` when the list is empty (JS `undefined`). -/
def handleQuickPublish (now : ℚ) (s : AppState) : AppState × Option Notification :=
  match s.mapCenter with
  | none => (s, none)
  | some center =>
    if s.myEncounters.length ≥ 5 then
      (s, some { message := "Límite de 5 encuentros alcanzado", type := NotifType.error })
    else
      let desc :=
        match s.userProfile.quickMessage with
        | some q => if q = "" then "Me llamaste la atención, me pareciste linda e interesante" else q
        | none => "Me llamaste la atención, me pareciste linda e interesante"
      let newEncounter : Encounter :=
        { id := "mine-quick-" ++ toString now.num
          userId := s.userProfile.id
          userProfile := s.userProfile
          title := "Miradas Cruzadas"
          description := desc
          location := center
          timestamp := now
          status := EncounterStatus.PENDING
          image := s.userProfile.images.head?
          distance := some 0
          tags := [EncounterTag.cruzamosMiradas] }
      ({ s with
          myEncounters := newEncounter :: s.myEncounters,
          activeTab := Tab.explore,
          currentView := View.main },
       some { message := "¡Encuentro publicado rápidamente!", type := NotifType.success })

/-- The own-post delete button handler (src/App.tsx lines 1749-1757). -/
def deleteOwnPost (encounterId : String) (s : AppState) : AppState × Option Notification :=
  ({ s with myEncounters := s.myEncounters.filter (fun e => !(decide (e.id = encounterId))) },
   some { message := "Encuentro eliminado", type := NotifType.info })

/-- The `visibleEncounters` memo (src/App.tsx lines 379-391).  The imported
`getDistanceInMeters` and `MATCH_RADIUS` come from `src/utils/geo`, a module
not included in the sources; the filter is therefore stated for an arbitrary
distance function `dist` and radius `radius`, which the memo closes over. -/
def visibleEncounters (dist : Location → Location → ℚ) (radius : ℚ)
    (myEncounters nearbyEncounters : List Encounter) (showHidden : Bool) :
    List Encounter :=
  if myEncounters.length = 0 then []
  else
    nearbyEncounters.filter (fun other =>
      if !showHidden && decide (other.status = EncounterStatus.HIDDEN) then false
      else
        myEncounters.any (fun mine => decide (dist mine.location other.location ≤ radius)))

/-- Modelled from the spec: `MATCH_RADIUS` is defined in `src/utils/geo`
(absent from the sources); §4.2 and the glossary describe it as "a fixed
match radius (a configured constant, e.g. 150 m)". -/
def MATCH_RADIUS : ℚ := 150

/-- A cluster marker emitted by `clusteredMarkers`
(src/App.tsx lines 452 and 475-483): id `cluster-<seed id>`, arithmetic-mean
coordinate of the group and member count. -/
structure ClusterMarker where
  id : String
  lat : ℚ
  lng : ℚ
  count : Nat
deriving DecidableEq

/-- The greedy single-seed grouping of `clusteredMarkers`
(src/App.tsx lines 456-487), for a closeness test `close`.  The double
`forEach` with the `processedIds` set is, for distinct post ids, the
recursion below: the head of the unprocessed list seeds a group, every later
unprocessed post close to the seed joins it, and the rest is processed
recursively.  A group of one emits a single marker; a larger group emits one
cluster marker at the mean coordinate with the member count. -/
def clusterStep (close : Encounter → Encounter → Bool) :
    List Encounter → List ClusterMarker × List Encounter
  | [] => ([], [])
  | cur :: rest =>
    let joined := rest.filter (fun o => close cur o)
    let remaining := rest.filter (fun o => !close cur o)
    let res := clusterStep close remaining
    if joined.length = 0 then
      (res.1, cur :: res.2)
    else
      let group := cur :: joined
      let avgLat := (group.map (fun e => e.location.lat)).sum / group.length
      let avgLng := (group.map (fun e => e.location.lng)).sum / group.length
      ({ id := "cluster-" ++ cur.id, lat := avgLat, lng := avgLng,
         count := group.length } :: res.1, res.2)
termination_by l => l.length
decreasing_by
  exact Nat.lt_succ_of_le (List.length_filter_le _ _)

/-- The pairwise distance expression inside `clusteredMarkers`
(src/App.tsx lines 463-466):
`Math.sqrt(Math.pow(latDelta, Math.pow(lngDelta, 2)))` — the latitude delta
is raised to the power of the squared longitude delta (a misplaced
parenthesis; `Math.pow(x, y)` on reals is `Real.rpow`, which agrees with
JavaScript at the base-zero, exponent-zero point used below, both yielding 1). -/
noncomputable def clusterPairDist (a b : Encounter) : ℝ :=
  Real.sqrt ((((a.location.lat : ℝ) - (b.location.lat : ℝ)) ^
    (((a.location.lng : ℝ) - (b.location.lng : ℝ)) ^ (2 : ℕ) : ℝ)))

/-- The `dist < threshold` join test of src/App.tsx line 468, over the
defective `clusterPairDist`. -/
noncomputable def clusterClose (threshold : ℝ) (a b : Encounter) : Bool :=
  decide (clusterPairDist a b < threshold)

/-- The clustering core as shipped: greedy grouping under the defective
pairwise distance. -/
noncomputable def clusteredCore (threshold : ℝ) (posts : List Encounter) :
    List ClusterMarker × List Encounter :=
  clusterStep (clusterClose threshold) posts

/-- Modelled from the spec: §4.5 and design note §9 define the *intended*
join test as a symmetric planar distance against the group seed,
`sqrt(latDelta² + lngDelta²) < threshold` (the expression the source's
misplaced parenthesis garbles). -/
noncomputable def intendedClose (threshold : ℝ) (a b : Encounter) : Bool :=
  decide (Real.sqrt (((a.location.lat : ℝ) - (b.location.lat : ℝ)) ^ 2 +
    ((a.location.lng : ℝ) - (b.location.lng : ℝ)) ^ 2) < threshold)

/-- Modelled from the spec: the clustering core with the intended symmetric
distance. -/
noncomputable def intendedCore (threshold : ℝ) (posts : List Encounter) :
    List ClusterMarker × List Encounter :=
  clusterStep (intendedClose threshold) posts

/-! ## Helper lemmas -/

/-- Replacing, in a chat list, every chat keyed `target` by a chat also keyed
`target` leaves every per-key session count unchanged. -/
theorem countP_key_map (l : List Chat) (target : String) (f : Chat → Chat)
    (hf : ∀ c, (f c).encounterId = target) (id : String) :
    ((l.map (fun c => if c.encounterId = target then f c else c)).countP
      (fun c => decide (c.encounterId = id))) =
      l.countP (fun c => decide (c.encounterId = id)) := by
  induction l with
  | nil => rfl
  | cons a l ih =>
    simp only [List.map_cons, List.countP_cons, ih]
    by_cases h : a.encounterId = target
    · rw [if_pos h, hf a, h]
    · rw [if_neg h]

/-- Lemma `countP_key_map`, packaged with the `≤ 1` bound. -/
theorem countP_key_map_le (l : List Chat) (target : String) (f : Chat → Chat)
    (hf : ∀ c, (f c).encounterId = target) (id : String)
    (h : l.countP (fun c => decide (c.encounterId = id)) ≤ 1) :
    ((l.map (fun c => if c.encounterId = target then f c else c)).countP
      (fun c => decide (c.encounterId = id))) ≤ 1 := by
  rw [countP_key_map l target f hf id]
  exact h

/-- A map that fixes every element of the list is the identity. -/
theorem map_eq_self_of_fixed {α : Type} (f : α → α) (l : List α)
    (h : ∀ a ∈ l, f a = a) : l.map f = l := by
  induction l with
  | nil => rfl
  | cons a l ih =>
    simp only [List.map_cons, h a (List.mem_cons_self a l),
      ih (fun x hx => h x (List.mem_cons_of_mem a hx))]

/-! ## Concrete sample data (used by witnesses and counterexamples) -/

/-- A current-user profile. -/
def sampleProfile : UserProfile :=
  { id := "me", name := "Ana", quickMessage := none, images := ["img"] }

/-- A simulated partner profile. -/
def partnerProfile : UserProfile :=
  { id := "p1", name := "Bea", quickMessage := none, images := ["pimg"] }

/-- A freshly initialised app state (all collections empty, as after login). -/
def baseState : AppState :=
  { userProfile := sampleProfile
    currentView := View.main
    activeTab := Tab.map
    exploreMode := ExploreMode.grouped
    myEncounters := []
    nearbyEncounters := []
    chats := []
    activeChat := none
    selectedEncounter := none
    isTyping := false
    showMatchOverlay := false
    showUnmatchDialog := false
    mapCenter := none
    newEncounterTitle := ""
    newEncounterDesc := ""
    newEncounterImage := none
    newEncounterTags := [] }

/-- A candidate post authored by the simulated partner. -/
def mkCandidate (i : String) (st : EncounterStatus) (loc : Location) : Encounter :=
  { id := i, userId := "p1", userProfile := partnerProfile, title := "t",
    description := "d", location := loc, timestamp := 0, image := none,
    status := st, distance := none, tags := [] }

/-- An own post of the current user. -/
def mkMine (i : String) (loc : Location) : Encounter :=
  { id := i, userId := "me", userProfile := sampleProfile, title := "t",
    description := "d", location := loc, timestamp := 0, image := none,
    status := EncounterStatus.PENDING, distance := some 0, tags := [] }

/-- A latitude-difference pseudo-distance, used only to instantiate the
distance parameter of `visibleEncounters` in a witness. -/
def distLat (a b : Location) : ℚ := |a.lat - b.lat|

/-! ## C1 — visibility rule -/

/-- C1: for every distance function, radius, own-post set, candidate catalog
and show-hidden flag: with no own posts the visible set is empty; otherwise a
candidate is visible iff (show-hidden is on or it is not hidden) and some own
post is within the radius, boundary included (`≤`). -/
theorem visibility_rule (dist : Location → Location → ℚ) (radius : ℚ)
    (my nearby : List Encounter) (showHidden : Bool) :
    (my = [] → visibleEncounters dist radius my nearby showHidden = []) ∧
    (my ≠ [] → ∀ c, c ∈ visibleEncounters dist radius my nearby showHidden ↔
      c ∈ nearby ∧ (showHidden = true ∨ c.status ≠ EncounterStatus.HIDDEN) ∧
        ∃ m ∈ my, dist m.location c.location ≤ radius) := by
  constructor
  · intro h
    simp [visibleEncounters, h]
  · intro h c
    have hlen : ¬ my.length = 0 := fun hl => h (List.length_eq_zero.mp hl)
    simp only [visibleEncounters, if_neg hlen, List.mem_filter]
    have hpred : ((if !showHidden && decide (c.status = EncounterStatus.HIDDEN) then false
        else my.any fun mine => decide (dist mine.location c.location ≤ radius)) = true) ↔
        ((showHidden = true ∨ c.status ≠ EncounterStatus.HIDDEN) ∧
          ∃ m ∈ my, dist m.location c.location ≤ radius) := by
      cases hs : showHidden <;> by_cases hc : c.status = EncounterStatus.HIDDEN <;>
        simp [hc, List.any_eq_true]
    rw [hpred]

/-- C1 witness: one own post; a candidate exactly at the boundary distance
(150) under the latitude pseudo-distance is visible. -/
theorem visibility_rule_witness :
    mkCandidate "b" EncounterStatus.PENDING ⟨150, 0⟩ ∈
      visibleEncounters distLat MATCH_RADIUS [mkMine "m" ⟨0, 0⟩]
        [mkCandidate "b" EncounterStatus.PENDING ⟨150, 0⟩] false :=
  ((visibility_rule distLat MATCH_RADIUS [mkMine "m" ⟨0, 0⟩]
      [mkCandidate "b" EncounterStatus.PENDING ⟨150, 0⟩] false).2
    (by simp) (mkCandidate "b" EncounterStatus.PENDING ⟨150, 0⟩)).mpr
    (by refine ⟨by simp, Or.inr (by simp [mkCandidate]), mkMine "m" ⟨0, 0⟩, by simp, ?_⟩
        simp [distLat, mkMine, mkCandidate, MATCH_RADIUS])

/-! ## C2 — Connect on Pending / LikedByThem -/

/-- The chat session seeded by the instant-match branch of `handleConnect`
(src/App.tsx lines 616-625), spelled out as a standalone value. -/
def matchChat (enc : Encounter) (msg : String) (now : ℚ) : Chat :=
  { encounterId := enc.id
    partnerName := enc.userProfile.name
    partnerImage := enc.userProfile.images.headD ""
    unreadCount := 1
    messages :=
      [ { id := "sys-1", senderId := "system", text := "¡Es un Match!", timestamp := now },
        { id := "initial-1", senderId := enc.userId, text := msg, timestamp := now + 1000 } ] }

/-- C2: Connect on a Pending candidate sets its status to LikedByMe and
creates no chat session; Connect on a LikedByThem candidate sets its status
to Matched and prepends exactly one chat session keyed by the candidate's id,
holding two seed messages (a system one, then a partner-authored opener) and
unread count 1. -/
theorem connect_transitions (s : AppState) (enc : Encounter) (msg : String) (now : ℚ) :
    (enc.status = EncounterStatus.PENDING →
      (handleConnect enc msg now s).1.chats = s.chats ∧
      ∀ e ∈ (handleConnect enc msg now s).1.nearbyEncounters,
        e.id = enc.id → e.status = EncounterStatus.LIKED_BY_ME) ∧
    (enc.status = EncounterStatus.LIKED_BY_THEM →
      (∀ e ∈ (handleConnect enc msg now s).1.nearbyEncounters,
        e.id = enc.id → e.status = EncounterStatus.MATCHED) ∧
      ∃ c, (handleConnect enc msg now s).1.chats = c :: s.chats ∧
        c.encounterId = enc.id ∧ c.unreadCount = 1 ∧
        c.messages.map (fun m => m.senderId) = ["system", enc.userId]) := by
  constructor
  · intro h
    have hnm : ¬ enc.status = EncounterStatus.LIKED_BY_THEM := by rw [h]; intro hc; cases hc
    constructor
    · simp [handleConnect, hnm]
    · intro e he hid
      simp only [handleConnect, hnm, if_false, if_neg hnm] at he
      obtain ⟨x, hx, hfx⟩ := List.mem_map.1 he
      by_cases hxi : x.id = enc.id
      · rw [if_pos hxi] at hfx
        rw [← hfx]
      · rw [if_neg hxi] at hfx
        exact absurd (hfx ▸ hid) hxi
  · intro h
    constructor
    · intro e he hid
      simp only [handleConnect, h, if_true, if_pos] at he
      obtain ⟨x, hx, hfx⟩ := List.mem_map.1 he
      by_cases hxi : x.id = enc.id
      · rw [if_pos hxi] at hfx
        rw [← hfx]
      · rw [if_neg hxi] at hfx
        exact absurd (hfx ▸ hid) hxi
    · refine ⟨matchChat enc msg now, ?_, rfl, rfl, rfl⟩
      simp [handleConnect, matchChat, h]

/-- C2 witness: concrete Pending and LikedByThem candidates. -/
theorem connect_transitions_witness :
    ((handleConnect (mkCandidate "c1" EncounterStatus.PENDING ⟨0, 0⟩) "hola" 0
        baseState).1.chats = baseState.chats) ∧
    (∃ c, (handleConnect (mkCandidate "c2" EncounterStatus.LIKED_BY_THEM ⟨0, 0⟩) "hola" 0
        baseState).1.chats = c :: baseState.chats ∧
      c.encounterId = (mkCandidate "c2" EncounterStatus.LIKED_BY_THEM ⟨0, 0⟩).id ∧
      c.unreadCount = 1 ∧
      c.messages.map (fun m => m.senderId) =
        ["system", (mkCandidate "c2" EncounterStatus.LIKED_BY_THEM ⟨0, 0⟩).userId]) :=
  ⟨((connect_transitions baseState (mkCandidate "c1" EncounterStatus.PENDING ⟨0, 0⟩)
      "hola" 0).1 rfl).1,
   ((connect_transitions baseState (mkCandidate "c2" EncounterStatus.LIKED_BY_THEM ⟨0, 0⟩)
      "hola" 0).2 rfl).2⟩

/-! ## C3 — unguarded transitions -/

/-- After a keyed update that replaces every post with the target id by a
post of status `st`, every post carrying the target id has status `st`. -/
theorem status_after_keyed_update (l : List Encounter) (tid : String)
    (f : Encounter → Encounter) (st : EncounterStatus) (hf : ∀ x, (f x).status = st) :
    ∀ e ∈ l.map (fun x => if x.id = tid then f x else x), e.id = tid → e.status = st := by
  intro e he hid
  obtain ⟨x, hx, hfx⟩ := List.mem_map.1 he
  by_cases hxi : x.id = tid
  · rw [if_pos hxi] at hfx
    rw [← hfx]
    exact hf x
  · rw [if_neg hxi] at hfx
    exact absurd (hfx ▸ hid) hxi

/-- C3 counterexample: Connect applied to a Hidden candidate does not leave
the state unchanged — the candidate list is mutated (its status becomes
LikedByMe). -/
theorem invalid_transition_counterexample :
    (mkCandidate "h1" EncounterStatus.HIDDEN ⟨0, 0⟩).status = EncounterStatus.HIDDEN ∧
    (handleConnect (mkCandidate "h1" EncounterStatus.HIDDEN ⟨0, 0⟩) "m" 0
        { baseState with
            nearbyEncounters := [mkCandidate "h1" EncounterStatus.HIDDEN ⟨0, 0⟩] }).1.nearbyEncounters
      ≠ [mkCandidate "h1" EncounterStatus.HIDDEN ⟨0, 0⟩] := by
  decide

/-- C3 amended: the handlers perform no precondition check.  Connect on a
Matched or Hidden candidate still rewrites its status to LikedByMe (creating
no chat); Reject on a selected Matched or LikedByThem candidate rewrites its
status to Hidden; Unmatch on a selected non-Matched candidate rewrites its
status to Pending and still filters the chat list by the candidate's id. -/
theorem unguarded_transitions (s : AppState) (enc : Encounter) (msg : String)
    (now : ℚ) (sel : Encounter) :
    ((enc.status = EncounterStatus.MATCHED ∨ enc.status = EncounterStatus.HIDDEN) →
      (handleConnect enc msg now s).1.chats = s.chats ∧
      ∀ e ∈ (handleConnect enc msg now s).1.nearbyEncounters, e.id = enc.id →
        e.status = EncounterStatus.LIKED_BY_ME) ∧
    (s.selectedEncounter = some sel →
      ((sel.status = EncounterStatus.MATCHED ∨ sel.status = EncounterStatus.LIKED_BY_THEM) →
        ∀ e ∈ (handleReject s).1.nearbyEncounters, e.id = sel.id →
          e.status = EncounterStatus.HIDDEN) ∧
      (sel.status ≠ EncounterStatus.MATCHED →
        (∀ e ∈ (handleUnmatch s).1.nearbyEncounters, e.id = sel.id →
          e.status = EncounterStatus.PENDING) ∧
        (handleUnmatch s).1.chats =
          s.chats.filter (fun c => !(decide (c.encounterId = sel.id))))) := by
  constructor
  · intro h
    have hnm : ¬ enc.status = EncounterStatus.LIKED_BY_THEM := by
      rcases h with h | h <;> rw [h] <;> intro hc <;> cases hc
    constructor
    · simp [handleConnect, hnm]
    · intro e he hid
      simp only [handleConnect, hnm, if_false, if_neg hnm] at he
      exact status_after_keyed_update _ _ _ _ (fun _ => rfl) e he hid
  · intro hsel
    constructor
    · intro _ e he hid
      simp only [handleReject, hsel] at he
      exact status_after_keyed_update _ _ _ _ (fun _ => rfl) e he hid
    · intro _
      constructor
      · intro e he hid
        simp only [handleUnmatch, hsel] at he
        exact status_after_keyed_update s.nearbyEncounters sel.id
          (fun x => { x with status := EncounterStatus.PENDING })
          EncounterStatus.PENDING (fun _ => rfl) e he hid
      · simp [handleUnmatch, hsel]

/-- C3 witness: a Hidden and a selected LikedByThem candidate exercising the
amended statement. -/
theorem unguarded_transitions_witness :
    ((handleConnect (mkCandidate "h1" EncounterStatus.HIDDEN ⟨0, 0⟩) "m" 0
        { baseState with
            nearbyEncounters :=
              [mkCandidate "h1" EncounterStatus.HIDDEN ⟨0, 0⟩,
               mkCandidate "l1" EncounterStatus.LIKED_BY_THEM ⟨0, 0⟩],
            selectedEncounter :=
              some (mkCandidate "l1" EncounterStatus.LIKED_BY_THEM ⟨0, 0⟩) }).1.chats =
      ({ baseState with
          nearbyEncounters :=
            [mkCandidate "h1" EncounterStatus.HIDDEN ⟨0, 0⟩,
             mkCandidate "l1" EncounterStatus.LIKED_BY_THEM ⟨0, 0⟩],
          selectedEncounter :=
            some (mkCandidate "l1" EncounterStatus.LIKED_BY_THEM ⟨0, 0⟩) } : AppState).chats) ∧
    ((handleUnmatch
        { baseState with
            nearbyEncounters :=
              [mkCandidate "h1" EncounterStatus.HIDDEN ⟨0, 0⟩,
               mkCandidate "l1" EncounterStatus.LIKED_BY_THEM ⟨0, 0⟩],
            selectedEncounter :=
              some (mkCandidate "l1" EncounterStatus.LIKED_BY_THEM ⟨0, 0⟩) }).1.chats =
      ({ baseState with
          nearbyEncounters :=
            [mkCandidate "h1" EncounterStatus.HIDDEN ⟨0, 0⟩,
             mkCandidate "l1" EncounterStatus.LIKED_BY_THEM ⟨0, 0⟩],
          selectedEncounter :=
            some (mkCandidate "l1" EncounterStatus.LIKED_BY_THEM ⟨0, 0⟩) } : AppState).chats.filter
        (fun c => !(decide (c.encounterId = "l1")))) :=
  ⟨((unguarded_transitions _ (mkCandidate "h1" EncounterStatus.HIDDEN ⟨0, 0⟩) "m" 0
      (mkCandidate "l1" EncounterStatus.LIKED_BY_THEM ⟨0, 0⟩)).1 (Or.inr rfl)).1,
   (((unguarded_transitions _ (mkCandidate "h1" EncounterStatus.HIDDEN ⟨0, 0⟩) "m" 0
      (mkCandidate "l1" EncounterStatus.LIKED_BY_THEM ⟨0, 0⟩)).2 rfl).2 (by decide)).2⟩

/-! ## C8 — Unmatch on Matched -/

/-- C8: Unmatch on a selected Matched candidate resets its status to Pending
and removes its chat session — a subsequent lookup by the candidate id finds
none. -/
theorem unmatch_resets (s : AppState) (sel : Encounter)
    (hsel : s.selectedEncounter = some sel)
    (_hst : sel.status = EncounterStatus.MATCHED) :
    (∀ e ∈ (handleUnmatch s).1.nearbyEncounters, e.id = sel.id →
      e.status = EncounterStatus.PENDING) ∧
    (handleUnmatch s).1.chats.find? (fun c => decide (c.encounterId = sel.id)) = none := by
  constructor
  · intro e he hid
    simp only [handleUnmatch, hsel] at he
    exact status_after_keyed_update s.nearbyEncounters sel.id
      (fun x => { x with status := EncounterStatus.PENDING })
      EncounterStatus.PENDING (fun _ => rfl) e he hid
  · simp only [handleUnmatch, hsel]
    refine List.find?_eq_none.mpr ?_
    intro x hx
    have hmem := (List.mem_filter.1 hx).2
    simp only [Bool.not_eq_true'] at hmem
    simp [hmem]

/-- C8 witness: a selected Matched candidate with a live session. -/
theorem unmatch_resets_witness :
    (handleUnmatch
        { baseState with
            nearbyEncounters := [mkCandidate "x" EncounterStatus.MATCHED ⟨0, 0⟩],
            selectedEncounter := some (mkCandidate "x" EncounterStatus.MATCHED ⟨0, 0⟩),
            chats := [{ encounterId := "x", partnerName := "Bea", partnerImage := "pimg",
                        messages := [], unreadCount := 0 }] }).1.chats.find?
      (fun c => decide (c.encounterId = (mkCandidate "x" EncounterStatus.MATCHED ⟨0, 0⟩).id)) =
      none :=
  (unmatch_resets _ (mkCandidate "x" EncounterStatus.MATCHED ⟨0, 0⟩) rfl rfl).2

/-! ## C9 / C10 — publish cap and frame conditions -/

/-- Handler `handleCreateEncounter` never touches the candidate list or the chats. -/
theorem createEncounter_frame (now : ℚ) (s : AppState) :
    (handleCreateEncounter now s).1.nearbyEncounters = s.nearbyEncounters ∧
    (handleCreateEncounter now s).1.chats = s.chats := by
  unfold handleCreateEncounter
  cases s.mapCenter with
  | none => exact ⟨rfl, rfl⟩
  | some c =>
    dsimp only
    by_cases h1 : s.newEncounterTitle = "" ∨ s.newEncounterDesc = ""
    · rw [if_pos h1]
      exact ⟨rfl, rfl⟩
    · rw [if_neg h1]
      by_cases h2 : s.myEncounters.length ≥ 5
      · rw [if_pos h2]
        exact ⟨rfl, rfl⟩
      · rw [if_neg h2]
        exact ⟨rfl, rfl⟩

/-- Handler `handleQuickPublish` never touches the candidate list or the chats. -/
theorem quickPublish_frame (now : ℚ) (s : AppState) :
    (handleQuickPublish now s).1.nearbyEncounters = s.nearbyEncounters ∧
    (handleQuickPublish now s).1.chats = s.chats := by
  unfold handleQuickPublish
  cases s.mapCenter with
  | none => exact ⟨rfl, rfl⟩
  | some c =>
    dsimp only
    by_cases h2 : s.myEncounters.length ≥ 5
    · rw [if_pos h2]
      exact ⟨rfl, rfl⟩
    · rw [if_neg h2]
      exact ⟨rfl, rfl⟩

/-- C9: with 5 own posts, both publish paths report the capacity error and
leave the own-post list untouched. -/
theorem publish_capacity (s : AppState) (now : ℚ) (c : Location)
    (hc : s.mapCenter = some c) (h5 : s.myEncounters.length = 5) :
    (s.newEncounterTitle ≠ "" → s.newEncounterDesc ≠ "" →
      (handleCreateEncounter now s).1.myEncounters = s.myEncounters ∧
      (handleCreateEncounter now s).2 =
        some { message := "Límite de 5 encuentros alcanzado", type := NotifType.error }) ∧
    ((handleQuickPublish now s).1.myEncounters = s.myEncounters ∧
      (handleQuickPublish now s).2 =
        some { message := "Límite de 5 encuentros alcanzado", type := NotifType.error }) := by
  have hge : s.myEncounters.length ≥ 5 := by omega
  constructor
  · intro ht hd
    have hguard : ¬ (s.newEncounterTitle = "" ∨ s.newEncounterDesc = "") := by
      intro hor
      rcases hor with hor | hor
      · exact ht hor
      · exact hd hor
    simp [handleCreateEncounter, hc, hguard, hge]
  · simp [handleQuickPublish, hc, hge]

/-- C9 witness: a state with exactly five own posts and a filled-in form. -/
theorem publish_capacity_witness :
    (handleQuickPublish 9
        { baseState with
            myEncounters :=
              [mkMine "m1" ⟨0, 0⟩, mkMine "m2" ⟨0, 0⟩, mkMine "m3" ⟨0, 0⟩,
               mkMine "m4" ⟨0, 0⟩, mkMine "m5" ⟨0, 0⟩],
            mapCenter := some ⟨0, 0⟩,
            newEncounterTitle := "t",
            newEncounterDesc := "d" }).2 =
      some { message := "Límite de 5 encuentros alcanzado", type := NotifType.error } :=
  ((publish_capacity
      { baseState with
          myEncounters :=
            [mkMine "m1" ⟨0, 0⟩, mkMine "m2" ⟨0, 0⟩, mkMine "m3" ⟨0, 0⟩,
             mkMine "m4" ⟨0, 0⟩, mkMine "m5" ⟨0, 0⟩],
          mapCenter := some ⟨0, 0⟩,
          newEncounterTitle := "t",
          newEncounterDesc := "d" } 9 ⟨0, 0⟩ rfl rfl).2).2

/-- C10: publishing (detailed or quick) and deleting an own post leave every
candidate post — statuses included — and every chat session unchanged. -/
theorem publish_delete_frame (s : AppState) (now : ℚ) (encounterId : String) :
    ((handleCreateEncounter now s).1.nearbyEncounters = s.nearbyEncounters ∧
     (handleCreateEncounter now s).1.chats = s.chats) ∧
    ((handleQuickPublish now s).1.nearbyEncounters = s.nearbyEncounters ∧
     (handleQuickPublish now s).1.chats = s.chats) ∧
    ((deleteOwnPost encounterId s).1.nearbyEncounters = s.nearbyEncounters ∧
     (deleteOwnPost encounterId s).1.chats = s.chats) :=
  ⟨createEncounter_frame now s, quickPublish_frame now s, rfl, rfl⟩

/-! ## C4 — at most one chat session per candidate id -/

/-- Each candidate post id owns at most one live chat session. -/
def chatKeyUnique (s : AppState) : Prop :=
  ∀ id : String, s.chats.countP (fun c => decide (c.encounterId = id)) ≤ 1

/-- A state in which a LikedByThem candidate already owns a (recovery)
session — reachable by `openChat` on that candidate, which performs no status
check. -/
def likedWithSessionState : AppState :=
  { baseState with
      nearbyEncounters := [mkCandidate "x" EncounterStatus.LIKED_BY_THEM ⟨0, 0⟩],
      chats := [{ encounterId := "x", partnerName := "Bea", partnerImage := "pimg",
                  messages := [], unreadCount := 0 }] }

/-- C4 counterexample: Connect does not preserve the one-session-per-id
invariant — on a LikedByThem candidate that already owns a session it
prepends a second session with the same key. -/
theorem chat_uniqueness_counterexample :
    chatKeyUnique likedWithSessionState ∧
    ¬ chatKeyUnique
      (handleConnect (mkCandidate "x" EncounterStatus.LIKED_BY_THEM ⟨0, 0⟩) "m" 0
        likedWithSessionState).1 := by
  constructor
  · intro id
    simp only [likedWithSessionState, baseState, List.countP_cons, List.countP_nil]
    split <;> omega
  · intro h
    exact absurd (h "x") (by decide)

/-- C4 amended: every engine operation preserves the one-session-per-id
invariant, except that Connect requires the side condition that the
LikedByThem candidate being connected has no existing session (which the
counterexample shows is necessary), and reply delivery concerns the pending
replies `sendMessage` actually schedules (captured chat keyed by the captured
id). -/
theorem chat_key_preserved (s : AppState) (h : chatKeyUnique s) :
    (∀ enc msg now, (enc.status = EncounterStatus.LIKED_BY_THEM →
        s.chats.countP (fun c => decide (c.encounterId = enc.id)) = 0) →
      chatKeyUnique (handleConnect enc msg now s).1) ∧
    chatKeyUnique (handleReject s).1 ∧
    chatKeyUnique (handleUnmatch s).1 ∧
    (∀ encounterId now, chatKeyUnique (openChat encounterId now s)) ∧
    (∀ text now, chatKeyUnique (sendMessage text now s).1) ∧
    (∀ p now, p.capturedChat.encounterId = p.capturedActiveId →
      chatKeyUnique (fireReply p now s).1) ∧
    (∀ now, chatKeyUnique (handleCreateEncounter now s).1) ∧
    (∀ now, chatKeyUnique (handleQuickPublish now s).1) ∧
    (∀ encounterId, chatKeyUnique (deleteOwnPost encounterId s).1) := by
  refine ⟨?_, ?_, ?_, ?_, ?_, ?_, ?_, ?_, ?_⟩
  · -- Connect
    intro enc msg now hside id
    by_cases hm : enc.status = EncounterStatus.LIKED_BY_THEM
    · have hch : (handleConnect enc msg now s).1.chats = matchChat enc msg now :: s.chats := by
        simp [handleConnect, matchChat, hm]
      rw [hch, List.countP_cons]
      by_cases hid : enc.id = id
      · have h0 : s.chats.countP (fun c => decide (c.encounterId = id)) = 0 := hid ▸ hside hm
        simp [matchChat, hid, h0]
      · have : ¬ ((matchChat enc msg now).encounterId = id) := hid
        simpa [this] using h id
    · have hch : (handleConnect enc msg now s).1.chats = s.chats := by
        simp [handleConnect, hm]
      rw [hch]
      exact h id
  · -- Reject
    intro id
    have hch : (handleReject s).1.chats = s.chats := by
      unfold handleReject
      cases s.selectedEncounter <;> rfl
    rw [hch]
    exact h id
  · -- Unmatch
    intro id
    unfold handleUnmatch
    cases s.selectedEncounter with
    | none => exact h id
    | some sel =>
      dsimp only
      exact le_trans ((List.filter_sublist s.chats).countP_le _) (h id)
  · -- openChat
    intro encounterId now id
    unfold openChat
    cases hf : s.chats.find? (fun c => decide (c.encounterId = encounterId)) with
    | some chat =>
      dsimp only
      have hkey : chat.encounterId = encounterId := by
        simpa using List.find?_some hf
      rw [countP_key_map s.chats encounterId (fun _ => { chat with unreadCount := 0 })
        (fun _ => hkey) id]
      exact h id
    | none =>
      cases he : s.nearbyEncounters.find? (fun e => decide (e.id = encounterId)) with
      | none =>
        dsimp only
        exact h id
      | some enc =>
        dsimp only
        have hkey : enc.id = encounterId := by
          simpa using List.find?_some he
        rw [countP_key_map (s.chats ++ [_]) encounterId _ (fun _ => hkey) id,
          List.countP_append]
        by_cases hid : encounterId = id
        · have h0 : s.chats.countP (fun c => decide (c.encounterId = id)) = 0 := by
            rw [← hid]
            refine List.countP_eq_zero.mpr ?_
            intro a ha
            simpa using List.find?_eq_none.mp hf a ha
          simp [h0, List.countP_cons, hkey, hid]
        · have hne : ¬ (enc.id = id) := fun hc => hid (hkey ▸ hc)
          simpa [List.countP_cons, List.countP_nil, hne] using h id
  · -- sendMessage
    intro text now id
    unfold sendMessage
    cases s.activeChat with
    | none => exact h id
    | some ac =>
      dsimp only
      refine countP_key_map_le s.chats ac.encounterId _ ?_ id (h id)
      intro c
      rfl
  · -- fireReply
    intro p now hp id
    unfold fireReply
    dsimp only
    refine countP_key_map_le s.chats p.capturedActiveId _ ?_ id (h id)
    intro c
    dsimp only
    split <;> exact hp
  · -- detailed publish
    intro now id
    rw [(createEncounter_frame now s).2]
    exact h id
  · -- quick publish
    intro now id
    rw [(quickPublish_frame now s).2]
    exact h id
  · -- delete own post
    intro encounterId id
    exact h id

/-- C4 witness: from the empty initial state, Connect on a LikedByThem
candidate (no pre-existing session) keeps the invariant. -/
theorem chat_key_preserved_witness :
    chatKeyUnique
      (handleConnect (mkCandidate "c2" EncounterStatus.LIKED_BY_THEM ⟨0, 0⟩) "hola" 0
        baseState).1 :=
  (chat_key_preserved baseState
      (fun id => by simp [baseState, List.countP_nil])).1
    (mkCandidate "c2" EncounterStatus.LIKED_BY_THEM ⟨0, 0⟩) "hola" 0 (fun _ => rfl)

/-! ## C6 — stale delayed reply after Unmatch -/

/-- C6: when the pending reply's session is destroyed by Unmatch before the
timer fires, firing the reply changes no chat session (none is recreated, no
message is appended under that id), leaves no chat active, and can emit no
error-typed notification. -/
theorem stale_reply_discarded (s : AppState) (p : PendingReply) (now : ℚ)
    (sel : Encounter) (hsel : s.selectedEncounter = some sel)
    (hid : sel.id = p.capturedActiveId) :
    (fireReply p now (handleUnmatch s).1).1.chats = (handleUnmatch s).1.chats ∧
    (fireReply p now (handleUnmatch s).1).1.activeChat = none ∧
    ∀ n ∈ (fireReply p now (handleUnmatch s).1).2, n.type ≠ NotifType.error := by
  have hstate :
      (handleUnmatch s).1.chats = s.chats.filter (fun c => !(decide (c.encounterId = sel.id))) ∧
      (handleUnmatch s).1.activeChat = none := by
    constructor <;> simp [handleUnmatch, hsel]
  refine ⟨?_, ?_, ?_⟩
  · show ((handleUnmatch s).1.chats.map _) = (handleUnmatch s).1.chats
    refine map_eq_self_of_fixed _ _ ?_
    intro c hc
    rw [hstate.1] at hc
    have hne : ¬ (c.encounterId = p.capturedActiveId) := by
      have := (List.mem_filter.1 hc).2
      simp only [Bool.not_eq_true'] at this
      rw [← hid]
      simpa using this
    simp [hne]
  · show (match (handleUnmatch s).1.activeChat with
      | some prev => if prev.encounterId = p.capturedActiveId then _ else some prev
      | none => none) = none
    rw [hstate.2]
  · intro n hn
    simp only [fireReply] at hn
    by_cases hv : p.capturedView = View.chat
    · rw [if_neg (by simp [hv])] at hn
      exact absurd hn (by simp)
    · rw [if_pos hv] at hn
      have hx := Option.some.inj (Option.mem_def.mp hn)
      rw [← hx]
      simp

/-- A live session for candidate id "x". -/
def sessionX : Chat :=
  { encounterId := "x"
    partnerName := "Bea"
    partnerImage := "pimg"
    messages := []
    unreadCount := 0 }

/-- A state with a selected Matched candidate "x", its live session, and that
session open. -/
def matchedSessionState : AppState :=
  { baseState with
      nearbyEncounters := [mkCandidate "x" EncounterStatus.MATCHED ⟨0, 0⟩],
      selectedEncounter := some (mkCandidate "x" EncounterStatus.MATCHED ⟨0, 0⟩),
      chats := [sessionX],
      activeChat := some sessionX,
      currentView := View.chat }

/-- A pending reply captured for session "x" (view captured as focused). -/
def pendingX : PendingReply :=
  { capturedChat := sessionX
    capturedActiveId := "x"
    capturedPartnerName := "Bea"
    capturedView := View.chat }

/-- C6 witness: unmatch the selected "x", then fire the pending reply. -/
theorem stale_reply_discarded_witness :
    (fireReply pendingX 5 (handleUnmatch matchedSessionState).1).1.chats =
      (handleUnmatch matchedSessionState).1.chats ∧
    (fireReply pendingX 5 (handleUnmatch matchedSessionState).1).1.activeChat = none :=
  ⟨(stale_reply_discarded matchedSessionState pendingX 5
      (mkCandidate "x" EncounterStatus.MATCHED ⟨0, 0⟩) rfl rfl).1,
   (stale_reply_discarded matchedSessionState pendingX 5
      (mkCandidate "x" EncounterStatus.MATCHED ⟨0, 0⟩) rfl rfl).2.1⟩

/-! ## C7 — unread accounting when the reply lands -/

/-- The map-view back button handler `setCurrentView('main')`
(src/App.tsx line 1053). -/
def navigateBack (s : AppState) : AppState :=
  { s with currentView := View.main }

/-- A state with session "x" open and focused (no messages yet, unread 0). -/
def focusedChatState : AppState :=
  { baseState with
      chats := [sessionX],
      activeChat := some sessionX,
      currentView := View.chat }

/-- The pending reply `sendMessage "hey"` schedules from `focusedChatState`:
the captured chat holds the just-sent message and the captured view is the
focused chat view. -/
def pendingSent : PendingReply :=
  { capturedChat :=
      { sessionX with
          messages := [{ id := "msg-0", senderId := "me", text := "hey", timestamp := 0 }] }
    capturedActiveId := "x"
    capturedPartnerName := "Bea"
    capturedView := View.chat }

/-- C7 counterexample: send while focused, navigate away before the timer
fires; when the reply lands the session is not the focused one, yet its
unread count stays 0 (the closure captured the view at send time), where the
claim requires an increment to 1. -/
theorem reply_focus_counterexample :
    (sendMessage "hey" 0 focusedChatState).2 = some pendingSent ∧
    (navigateBack (sendMessage "hey" 0 focusedChatState).1).currentView ≠ View.chat ∧
    ((fireReply pendingSent 1
        (navigateBack (sendMessage "hey" 0 focusedChatState).1)).1.chats.map
      (fun c => c.unreadCount)) = [0] := by
  decide

/-- C7 amended: the focused-chat test for the delayed reply is evaluated on
the view captured at send time (the `setTimeout` closure), not on the view
current when the reply lands.  If the chat view was focused at send time the
session's unread count is left as it was at send time and the session gains
the user's message plus the reply; if it was unfocused at send time the
unread count increments by one (over its send-time value), with the same two
messages gained.  `s2` is any later state whose chat list is unchanged since
the send. -/
theorem reply_focus_at_send (s : AppState) (ac : Chat) (text : String)
    (now now2 : ℚ) (p : PendingReply) (s2 : AppState)
    (hac : s.activeChat = some ac)
    (hp : (sendMessage text now s).2 = some p)
    (hchats : s2.chats = (sendMessage text now s).1.chats) :
    (s.currentView = View.chat →
      ∀ c ∈ (fireReply p now2 s2).1.chats, c.encounterId = ac.encounterId →
        c.unreadCount = ac.unreadCount ∧
        c.messages.length = ac.messages.length + 2) ∧
    (s.currentView ≠ View.chat →
      ∀ c ∈ (fireReply p now2 s2).1.chats, c.encounterId = ac.encounterId →
        c.unreadCount = ac.unreadCount + 1 ∧
        c.messages.length = ac.messages.length + 2) := by
  simp only [sendMessage, hac] at hp hchats
  have hpe := Option.some.inj hp
  subst hpe
  constructor
  · intro hview c hc hkey
    simp only [fireReply] at hc
    rw [hchats] at hc
    obtain ⟨x, hx, rfl⟩ := List.mem_map.1 hc
    obtain ⟨y, hy, rfl⟩ := List.mem_map.1 hx
    by_cases hyk : y.encounterId = ac.encounterId
    · refine ⟨?_, ?_⟩ <;> simp [hyk, hview, List.length_append]
    · simp [hyk] at hkey
  · intro hview c hc hkey
    simp only [fireReply] at hc
    rw [hchats] at hc
    obtain ⟨x, hx, rfl⟩ := List.mem_map.1 hc
    obtain ⟨y, hy, rfl⟩ := List.mem_map.1 hx
    by_cases hyk : y.encounterId = ac.encounterId
    · refine ⟨?_, ?_⟩ <;> simp [hyk, hview, List.length_append]
    · simp [hyk] at hkey

/-- C7 witness: send while focused and let the reply land with the chat still
open — unread stays at its send-time value 0 and the session gains the two
messages. -/
theorem reply_focus_at_send_witness :
    ((fireReply pendingSent 1
        (sendMessage "hey" 0 focusedChatState).1).1.chats.headD sessionX).unreadCount =
      sessionX.unreadCount ∧
    ((fireReply pendingSent 1
        (sendMessage "hey" 0 focusedChatState).1).1.chats.headD sessionX).messages.length =
      sessionX.messages.length + 2 :=
  (reply_focus_at_send focusedChatState sessionX "hey" 0 1 pendingSent
      (sendMessage "hey" 0 focusedChatState).1 rfl (by decide) rfl).1 rfl
    _ (by decide) (by decide)

/-! ## C5 — clustering pair behaviour -/

/-- Two posts whose closeness test fails are emitted as two single markers. -/
theorem clusterStep_pair_far (close : Encounter → Encounter → Bool)
    (a b : Encounter) (h : close a b = false) :
    clusterStep close [a, b] = ([], [a, b]) := by
  simp [clusterStep, h]

/-- Two posts whose closeness test succeeds are emitted as one cluster marker
at the mean coordinate with count 2. -/
theorem clusterStep_pair_near (close : Encounter → Encounter → Bool)
    (a b : Encounter) (h : close a b = true) :
    clusterStep close [a, b] =
      ([⟨"cluster-" ++ a.id, (a.location.lat + b.location.lat) / 2,
        (a.location.lng + b.location.lng) / 2, 2⟩], []) := by
  simp [clusterStep, h]

/-- The cluster marker the intended clustering emits for the two sample posts
"a" and "b" at the same coordinate. -/
def meanMarkerAB : ClusterMarker :=
  { id := "cluster-a"
    lat := 0
    lng := 0
    count := 2 }

/-- C5 (defect exhibit): two posts at the same coordinate — any sane distance
between them is 0, below every threshold — are emitted by the shipped
clustering as two single markers, because the garbled pairwise expression
evaluates to `sqrt(0 ^ 0) = 1`; the spec-intended symmetric distance emits
one cluster marker of count 2 at the mean coordinate. -/
theorem cluster_distance_defect :
    (mkCandidate "a" EncounterStatus.PENDING ⟨0, 0⟩).location =
      (mkCandidate "b" EncounterStatus.PENDING ⟨0, 0⟩).location ∧
    clusterPairDist (mkCandidate "a" EncounterStatus.PENDING ⟨0, 0⟩)
      (mkCandidate "b" EncounterStatus.PENDING ⟨0, 0⟩) = 1 ∧
    clusteredCore 0.005
      [mkCandidate "a" EncounterStatus.PENDING ⟨0, 0⟩,
       mkCandidate "b" EncounterStatus.PENDING ⟨0, 0⟩] =
      ([], [mkCandidate "a" EncounterStatus.PENDING ⟨0, 0⟩,
            mkCandidate "b" EncounterStatus.PENDING ⟨0, 0⟩]) ∧
    intendedCore 0.005
      [mkCandidate "a" EncounterStatus.PENDING ⟨0, 0⟩,
       mkCandidate "b" EncounterStatus.PENDING ⟨0, 0⟩] =
      ([meanMarkerAB], []) := by
  have h1 : (((mkCandidate "a" EncounterStatus.PENDING ⟨0, 0⟩).location.lat : ℝ) -
      ((mkCandidate "b" EncounterStatus.PENDING ⟨0, 0⟩).location.lat : ℝ)) = 0 := by
    norm_num [mkCandidate]
  have h2 : (((mkCandidate "a" EncounterStatus.PENDING ⟨0, 0⟩).location.lng : ℝ) -
      ((mkCandidate "b" EncounterStatus.PENDING ⟨0, 0⟩).location.lng : ℝ)) = 0 := by
    norm_num [mkCandidate]
  have hAB : clusterPairDist (mkCandidate "a" EncounterStatus.PENDING ⟨0, 0⟩)
      (mkCandidate "b" EncounterStatus.PENDING ⟨0, 0⟩) = 1 := by
    unfold clusterPairDist
    rw [h1, h2]
    rw [show ((0 : ℝ) ^ (2 : ℕ) : ℝ) = 0 by norm_num, Real.rpow_zero, Real.sqrt_one]
  have hclose : clusterClose 0.005 (mkCandidate "a" EncounterStatus.PENDING ⟨0, 0⟩)
      (mkCandidate "b" EncounterStatus.PENDING ⟨0, 0⟩) = false := by
    unfold clusterClose
    rw [hAB]
    exact decide_eq_false (by norm_num)
  have hiclose : intendedClose 0.005 (mkCandidate "a" EncounterStatus.PENDING ⟨0, 0⟩)
      (mkCandidate "b" EncounterStatus.PENDING ⟨0, 0⟩) = true := by
    unfold intendedClose
    refine decide_eq_true ?_
    rw [h1, h2]
    rw [show ((0 : ℝ) ^ (2 : ℕ) + (0 : ℝ) ^ (2 : ℕ) : ℝ) = 0 by norm_num, Real.sqrt_zero]
    norm_num
  refine ⟨rfl, hAB, ?_, ?_⟩
  · show clusterStep _ _ = _
    exact clusterStep_pair_far _ _ _ hclose
  · show clusterStep _ _ = _
    rw [clusterStep_pair_near _ _ _ hiclose]
    simp only [meanMarkerAB, mkCandidate, Prod.mk.injEq, List.cons.injEq,
      ClusterMarker.mk.injEq]
    norm_num
    decide
